import Mathlib

/-!
Shallow embedding of the DePizza order-pricing and order-lifecycle core:
the Money value type (src/domain/shared/money.ts), the pricing strategy
chain and the Order aggregate (src/domain/order).

Modelling conventions:
* JavaScript numbers are modelled as rationals.
* Thrown JS exceptions are modelled as the error channel of Except:
  a function that can throw returns Except ValidationError A, and
  Except.error e means the call threw e.  This channel is distinct from
  the neverthrow Result value that some functions return as data, which
  is modelled by the inductive Result below.  So Order.create, whose
  declared return type is a Result but whose body can also throw from
  inside Money arithmetic, is modelled as
  Except ValidationError (Result Order ValidationError).
* Dates are epoch milliseconds, as returned by JS Date arithmetic.
* Random UUIDs and wall-clock event timestamps are nondeterministic and
  carry no claim-relevant information; domain events are modelled by
  their deterministic payload (order id, statuses, total).
-/

namespace DePizza

/-- DomainError subclass for malformed input (result.ts). -/
structure ValidationError where
  message : String
deriving DecidableEq

/-- DomainError subclass for illegal state transitions (result.ts). -/
structure BusinessRuleViolationError where
  rule : String
deriving DecidableEq

/-- The neverthrow tagged success/failure value re-exported by result.ts. -/
inductive Result (T E : Type) where
  | Ok (value : T)
  | Err (error : E)
deriving DecidableEq

def Result.isOk {T E : Type} : Result T E → Bool
  | .Ok _ => true
  | .Err _ => false

def Result.isErr {T E : Type} : Result T E → Bool
  | .Ok _ => false
  | .Err _ => true

/-- Currency enum of money.ts. -/
inductive Currency where
  | USD
  | EUR
  | RUB
deriving DecidableEq

def Currency.name : Currency → String
  | .USD => "USD"
  | .EUR => "EUR"
  | .RUB => "RUB"

/-- Money value object of money.ts: a decimal amount plus a currency tag. -/
structure Money where
  amount : ℚ
  currency : Currency
deriving DecidableEq

/-- The private Money constructor: throws when the amount is negative. -/
def Money.mkChecked (amount : ℚ) (currency : Currency) :
    Except ValidationError Money :=
  if amount < 0 then
    .error ⟨"Money amount cannot be negative"⟩
  else
    .ok ⟨amount, currency⟩

/-- Money.create delegates to the constructor. -/
def Money.create (amount : ℚ) (currency : Currency) :
    Except ValidationError Money :=
  Money.mkChecked amount currency

/-- Money.fromCents divides by 100 and delegates to the constructor. -/
def Money.fromCents (cents : ℚ) (currency : Currency) :
    Except ValidationError Money :=
  Money.mkChecked (cents / 100) currency

/-- Money.toCents: Math.round(amount * 100); Math.round x = floor (x + 1/2). -/
def Money.toCents (m : Money) : ℤ :=
  round (m.amount * 100)

/-- Money.ensureSameCurrency: throws a ValidationError on currency mismatch. -/
def Money.ensureSameCurrency (a other : Money) : Except ValidationError Unit :=
  if a.currency ≠ other.currency then
    .error ⟨"Cannot perform operation with different currencies: " ++
      a.currency.name ++ " and " ++ other.currency.name⟩
  else
    .ok ()

/-- Money.add: same-currency check, then a new Money with the summed amount. -/
def Money.add (a other : Money) : Except ValidationError Money := do
  a.ensureSameCurrency other
  Money.mkChecked (a.amount + other.amount) a.currency

/-- Money.subtract: same-currency check, explicit negative-result check,
then a new Money with the difference. -/
def Money.subtract (a other : Money) : Except ValidationError Money := do
  a.ensureSameCurrency other
  let result := a.amount - other.amount
  if result < 0 then
    .error ⟨"Cannot subtract more money than available"⟩
  else
    Money.mkChecked result a.currency

/-- Money.multiply: negative-factor check, then a new scaled Money. -/
def Money.multiply (m : Money) (factor : ℚ) : Except ValidationError Money :=
  if factor < 0 then
    .error ⟨"Cannot multiply money by negative factor"⟩
  else
    Money.mkChecked (m.amount * factor) m.currency

/-- Money.equals: amount and currency compared for exact equality. -/
def Money.equals (a other : Money) : Bool :=
  decide (a.amount = other.amount) && decide (a.currency = other.currency)

/-- Money.isGreaterThan: same-currency check, then amount comparison. -/
def Money.isGreaterThan (a other : Money) : Except ValidationError Bool := do
  a.ensureSameCurrency other
  pure (decide (a.amount > other.amount))

/-- Money.isLessThan: same-currency check, then amount comparison. -/
def Money.isLessThan (a other : Money) : Except ValidationError Bool := do
  a.ensureSameCurrency other
  pure (decide (a.amount < other.amount))

/-! ### Pricing strategy chain (src/domain/order/pricing.ts) -/

/-- Pizza size enum of pizza.ts. -/
inductive PizzaSize where
  | SMALL
  | MEDIUM
  | LARGE
  | XLARGE
deriving DecidableEq

/-- Pizza crust enum of pizza.ts. -/
inductive PizzaCrust where
  | THIN
  | THICK
  | STUFFED
deriving DecidableEq

/-- Customer type union of the PricingContext. -/
inductive CustomerType where
  | REGULAR
  | VIP
  | STAFF
deriving DecidableEq

/-- JS dates, as epoch milliseconds. -/
abbrev Date := ℚ

/-- String identifiers (types.ts). -/
abbrev ID := String

/-- SeasonalModifier record of pricing.ts. -/
structure SeasonalModifier where
  name : String
  multiplier : ℚ
  validFrom : Date
  validTo : Date
  applicableToSizes : Option (List PizzaSize)
deriving DecidableEq

/-- PricingContext record of pricing.ts. -/
structure PricingContext where
  size : PizzaSize
  customIngredients : List (ID × ℚ)
  quantity : ℚ
  customerType : CustomerType
  orderTime : Date
  isHappyHour : Bool
  seasonalModifiers : List SeasonalModifier
deriving DecidableEq

/-- The memoized per-size multiplier table of pricing.ts. -/
def getSizeMultiplier : PizzaSize → ℚ
  | .SMALL => 0.8
  | .MEDIUM => 1.0
  | .LARGE => 1.3
  | .XLARGE => 1.6

/-- BasePricingStrategy.calculatePrice: multiply by the per-size factor. -/
def BasePricingStrategy.calculatePrice (basePrice : Money)
    (context : PricingContext) : Except ValidationError Money :=
  basePrice.multiply (getSizeMultiplier context.size)

/-- The fixed VIP discount rate field of VIPPricingStrategy. -/
def VIPPricingStrategy.discountRate : ℚ := 0.1

/-- VIPPricingStrategy.calculatePrice: delegates to BasePricingStrategy,
then applies the 10 percent discount only for VIP customers. -/
def VIPPricingStrategy.calculatePrice (basePrice : Money)
    (context : PricingContext) : Except ValidationError Money := do
  let baseCalculatedPrice ← BasePricingStrategy.calculatePrice basePrice context
  if context.customerType = .VIP then
    baseCalculatedPrice.multiply (1 - VIPPricingStrategy.discountRate)
  else
    pure baseCalculatedPrice

/-- The fixed happy-hour discount field of HappyHourPricingStrategy. -/
def HappyHourPricingStrategy.happyHourDiscount : ℚ := 0.15

/-- HappyHourPricingStrategy.calculatePrice: delegates to
VIPPricingStrategy, then applies the 15 percent discount in happy hour. -/
def HappyHourPricingStrategy.calculatePrice (basePrice : Money)
    (context : PricingContext) : Except ValidationError Money := do
  let price ← VIPPricingStrategy.calculatePrice basePrice context
  if context.isHappyHour then
    price.multiply (1 - HappyHourPricingStrategy.happyHourDiscount)
  else
    pure price

/-- SeasonalPricingStrategy.isModifierApplicable: the orderTime lies in the
closed window and, when applicableToSizes is present, it contains the size. -/
def SeasonalPricingStrategy.isModifierApplicable (modifier : SeasonalModifier)
    (context : PricingContext) : Bool :=
  let now := context.orderTime
  let isTimeValid := decide (modifier.validFrom ≤ now) && decide (now ≤ modifier.validTo)
  let isSizeValid :=
    match modifier.applicableToSizes with
    | none => true
    | some sizes => decide (context.size ∈ sizes)
  isTimeValid && isSizeValid

/-- SeasonalPricingStrategy.calculatePrice: delegates to
HappyHourPricingStrategy, then multiplies by each applicable seasonal
modifier in array order. -/
def SeasonalPricingStrategy.calculatePrice (basePrice : Money)
    (context : PricingContext) : Except ValidationError Money := do
  let price ← HappyHourPricingStrategy.calculatePrice basePrice context
  let applicableModifiers := context.seasonalModifiers.filter (fun modifier =>
    SeasonalPricingStrategy.isModifierApplicable modifier context)
  applicableModifiers.foldlM (fun price modifier =>
    price.multiply modifier.multiplier) price

/-! ### Order aggregate (src/domain/order/order.ts) -/

inductive OrderStatus where
  | PENDING
  | CONFIRMED
  | PREPARING
  | READY
  | OUT_FOR_DELIVERY
  | DELIVERED
  | CANCELLED
deriving DecidableEq

inductive PaymentStatus where
  | PENDING
  | PAID
  | FAILED
  | REFUNDED
deriving DecidableEq

inductive DeliveryType where
  | PICKUP
  | DELIVERY
deriving DecidableEq

/-- Address record of order.ts. -/
structure Address where
  street : String
  city : String
  postalCode : String
  country : String
  additionalInfo : Option String
deriving DecidableEq

/-- Pizza value of pizza.ts (the order line references it; no embedded
operation reads past its fields). -/
structure Pizza where
  recipeId : ID
  size : PizzaSize
  crust : PizzaCrust
  customIngredients : List (ID × ℚ)
  specialInstructions : Option String
deriving DecidableEq

/-- OrderItem record of order.ts. -/
structure OrderItem where
  pizza : Pizza
  quantity : ℚ
  unitPrice : Money
  totalPrice : Money
deriving DecidableEq

/-- CustomerInfo record of order.ts. -/
structure CustomerInfo where
  name : String
  phone : String
  email : Option String
deriving DecidableEq

/-- OrderProps record of order.ts: the input of the Order.create factory. -/
structure OrderProps where
  id : ID
  customerId : Option ID
  customerInfo : CustomerInfo
  items : List OrderItem
  deliveryType : DeliveryType
  deliveryAddress : Option Address
  specialInstructions : Option String
  requestedDeliveryTime : Option Date
deriving DecidableEq

/-- Domain events raised by the Order aggregate, modelled by their
deterministic payload (the random eventId and the wall-clock occurredOn
timestamp are dropped). -/
inductive OrderEvent where
  | created (orderId : ID) (customerId : Option ID) (totalAmount : Money)
  | statusChanged (orderId : ID) (previousStatus newStatus : OrderStatus)
deriving DecidableEq

/-- The Order aggregate state: the readonly constructor fields plus the
three private mutable fields and the aggregate-root event list. -/
structure Order where
  id : ID
  customerId : Option ID
  customerInfo : CustomerInfo
  items : List OrderItem
  deliveryType : DeliveryType
  deliveryAddress : Option Address
  specialInstructions : Option String
  requestedDeliveryTime : Option Date
  totalAmount : Money
  tax : Money
  deliveryFee : Money
  status : OrderStatus
  paymentStatus : PaymentStatus
  estimatedDeliveryTime : Option Date
  domainEvents : List OrderEvent
deriving DecidableEq

/-- BaseAggregateRoot.addDomainEvent: push onto the event list. -/
def Order.addDomainEvent (o : Order) (event : OrderEvent) : Order :=
  { o with domainEvents := o.domainEvents ++ [event] }

/-- Order.changeStatus: set the new status and record a status-changed
event carrying the previous and the new status. -/
def Order.changeStatus (o : Order) (newStatus : OrderStatus) : Order :=
  let previousStatus := o.status
  let o' := { o with status := newStatus }
  o'.addDomainEvent (.statusChanged o.id previousStatus newStatus)

/-- Order.calculateEstimatedDeliveryTime: 20 minutes per pizza times
quantity, plus 30 minutes for delivery orders, plus a 10 minute buffer,
converted to milliseconds past now. -/
def Order.calculateEstimatedDeliveryTime (o : Order) (now : Date) : Order :=
  let totalPreparationTime := o.items.foldl
    (fun total item => total + 20 * item.quantity) 0
  let deliveryTime : ℚ := if o.deliveryType = .DELIVERY then 30 else 0
  let bufferTime : ℚ := 10
  { o with
    estimatedDeliveryTime :=
      some (now + (totalPreparationTime + deliveryTime + bufferTime) * 60000) }

/-- Order.confirm: requires PENDING, then moves to CONFIRMED and computes
the estimated delivery time. -/
def Order.confirm (o : Order) (now : Date) :
    Result Unit BusinessRuleViolationError × Order :=
  if o.status ≠ .PENDING then
    (.Err ⟨"Order can only be confirmed from pending status"⟩, o)
  else
    (.Ok (), (o.changeStatus .CONFIRMED).calculateEstimatedDeliveryTime now)

/-- Order.startPreparation: requires CONFIRMED and a PAID payment. -/
def Order.startPreparation (o : Order) :
    Result Unit BusinessRuleViolationError × Order :=
  if o.status ≠ .CONFIRMED then
    (.Err ⟨"Order must be confirmed before preparation can start"⟩, o)
  else if o.paymentStatus ≠ .PAID then
    (.Err ⟨"Order must be paid before preparation can start"⟩, o)
  else
    (.Ok (), o.changeStatus .PREPARING)

/-- Order.markAsReady: requires PREPARING. -/
def Order.markAsReady (o : Order) :
    Result Unit BusinessRuleViolationError × Order :=
  if o.status ≠ .PREPARING then
    (.Err ⟨"Order must be in preparation to mark as ready"⟩, o)
  else
    (.Ok (), o.changeStatus .READY)

/-- Order.startDelivery: requires READY, and rejects pickup orders. -/
def Order.startDelivery (o : Order) :
    Result Unit BusinessRuleViolationError × Order :=
  if o.status ≠ .READY then
    (.Err ⟨"Order must be ready before delivery can start"⟩, o)
  else if o.deliveryType = .PICKUP then
    (.Err ⟨"Pickup orders cannot be delivered"⟩, o)
  else
    (.Ok (), o.changeStatus .OUT_FOR_DELIVERY)

/-- Order.markAsDelivered: a pickup order must be READY, a delivery order
must be OUT_FOR_DELIVERY. -/
def Order.markAsDelivered (o : Order) :
    Result Unit BusinessRuleViolationError × Order :=
  if o.deliveryType = .PICKUP ∧ o.status ≠ .READY then
    (.Err ⟨"Pickup order must be ready to mark as delivered"⟩, o)
  else if o.deliveryType = .DELIVERY ∧ o.status ≠ .OUT_FOR_DELIVERY then
    (.Err ⟨"Delivery order must be out for delivery to mark as delivered"⟩, o)
  else
    (.Ok (), o.changeStatus .DELIVERED)

/-- Order.cancel: rejected only for DELIVERED and OUT_FOR_DELIVERY. -/
def Order.cancel (o : Order) :
    Result Unit BusinessRuleViolationError × Order :=
  if o.status = .DELIVERED ∨ o.status = .OUT_FOR_DELIVERY then
    (.Err ⟨"Cannot cancel order that is already delivered or out for delivery"⟩, o)
  else
    (.Ok (), o.changeStatus .CANCELLED)

/-- Order.markPaymentAsPaid: unconditionally sets the payment status. -/
def Order.markPaymentAsPaid (o : Order) : Order :=
  { o with paymentStatus := .PAID }

/-- Order.markPaymentAsFailed: unconditionally sets the payment status. -/
def Order.markPaymentAsFailed (o : Order) : Order :=
  { o with paymentStatus := .FAILED }

/-- The JS String.prototype.trim: strip whitespace from both ends (written
over the character list so that it is kernel-computable). -/
def jsTrim (s : String) : String :=
  ⟨((s.data.dropWhile Char.isWhitespace).reverse.dropWhile
      Char.isWhitespace).reverse⟩

/-- Order.validateOrderProps, with the first failing check deciding the
error (every bad item yields the same quantity error value, so the scan of
the items loop is List.any). -/
def Order.validateOrderProps (props : OrderProps) :
    Result Unit ValidationError :=
  if jsTrim props.customerInfo.name = "" then
    .Err ⟨"Customer name is required"⟩
  else if jsTrim props.customerInfo.phone = "" then
    .Err ⟨"Customer phone is required"⟩
  else if props.items.length = 0 then
    .Err ⟨"Order must contain at least one item"⟩
  else if props.deliveryType = .DELIVERY ∧ props.deliveryAddress = none then
    .Err ⟨"Delivery address is required for delivery orders"⟩
  else if props.items.any (fun item => decide (item.quantity ≤ 0)) then
    .Err ⟨"Item quantity must be positive"⟩
  else
    .Ok ()

/-- Order.calculateTotalAmount: reduce over the items with
items[0].totalPrice.multiply(0) as the initial accumulator.  On an empty
list the JS code crashes reading items[0]; validation rules that case out
before this is ever called, and it is modelled as a thrown error. -/
def Order.calculateTotalAmount (items : List OrderItem) :
    Except ValidationError Money :=
  match items with
  | [] => .error ⟨"TypeError: cannot read totalPrice of undefined"⟩
  | first :: _ => do
      let init ← first.totalPrice.multiply 0
      items.foldlM (fun total item => total.add item.totalPrice) init

/-- Order.calculateTax: a flat 10 percent of the item subtotal. -/
def Order.calculateTax (amount : Money) : Except ValidationError Money :=
  amount.multiply 0.1

/-- Order.calculateDeliveryFee: 0 USD for pickup, a flat 5 USD for
delivery; the address argument is never read. -/
def Order.calculateDeliveryFee (deliveryType : DeliveryType)
    (address : Option Address) : Except ValidationError Money :=
  if deliveryType = .PICKUP then
    Money.create 0 .USD
  else
    Money.create 5 .USD

/-- Order.grandTotal: totalAmount + tax + deliveryFee. -/
def Order.grandTotal (o : Order) : Except ValidationError Money := do
  let t ← o.totalAmount.add o.tax
  t.add o.deliveryFee

/-- JS x or-else null on an optional string: undefined and the empty
string are falsy and collapse to null. -/
def jsStringOrNull : Option String → Option String
  | none => none
  | some s => if s = "" then none else some s

/-- Order.create: validate, compute the three totals, build the aggregate
and record the created event, whose totalAmount field evaluates
grandTotal.  The outer Except is the thrown-exception channel; the inner
Result is the value the factory declares and returns. -/
def Order.create (props : OrderProps) :
    Except ValidationError (Result Order ValidationError) := do
  match Order.validateOrderProps props with
  | .Err e => return .Err e
  | .Ok _ =>
    let totalAmount ← Order.calculateTotalAmount props.items
    let tax ← Order.calculateTax totalAmount
    let deliveryFee ← Order.calculateDeliveryFee props.deliveryType props.deliveryAddress
    let order : Order :=
      { id := props.id
        customerId := jsStringOrNull props.customerId
        customerInfo := props.customerInfo
        items := props.items
        deliveryType := props.deliveryType
        deliveryAddress := props.deliveryAddress
        specialInstructions := jsStringOrNull props.specialInstructions
        requestedDeliveryTime := props.requestedDeliveryTime
        totalAmount := totalAmount
        tax := tax
        deliveryFee := deliveryFee
        status := .PENDING
        paymentStatus := .PENDING
        estimatedDeliveryTime := none
        domainEvents := [] }
    let grand ← order.grandTotal
    return .Ok (order.addDomainEvent (.created order.id order.customerId grand))

/-! ### Spec-side pipeline definitions and concrete witness fixtures -/

/-- A concrete order used by the transition witnesses: a pickup order that
was already delivered, with payment still pending. -/
def deliveredPickupOrder : Order :=
  { id := "order-1"
    customerId := none
    customerInfo := ⟨"Alice", "123", none⟩
    items := [⟨⟨"recipe-1", .MEDIUM, .THIN, [], none⟩, 1, ⟨10, .USD⟩, ⟨10, .USD⟩⟩]
    deliveryType := .PICKUP
    deliveryAddress := none
    specialInstructions := none
    requestedDeliveryTime := none
    totalAmount := ⟨10, .USD⟩
    tax := ⟨1, .USD⟩
    deliveryFee := ⟨0, .USD⟩
    status := .DELIVERED
    paymentStatus := .PENDING
    estimatedDeliveryTime := none
    domainEvents := [] }

/-- A concrete order already in the CANCELLED state, used by the C10
witness. -/
def cancelledOrder : Order :=
  { deliveredPickupOrder with status := .CANCELLED }

/-- The full pricing stack as the spec words it, written as one flat
pipeline: per-size multiplier, then the 10 percent VIP discount when the
customer is VIP, then the 15 percent happy-hour discount when isHappyHour,
then every applicable seasonal modifier in array order. -/
def specFullPricingPipeline (basePrice : Money) (ctx : PricingContext) :
    Except ValidationError Money :=
  basePrice.multiply (getSizeMultiplier ctx.size) >>= fun afterSize =>
  (if ctx.customerType = .VIP then afterSize.multiply (1 - 0.1)
    else pure afterSize) >>= fun afterVip =>
  (if ctx.isHappyHour then afterVip.multiply (1 - 0.15)
    else pure afterVip) >>= fun afterHappyHour =>
  (ctx.seasonalModifiers.filter (fun m =>
      SeasonalPricingStrategy.isModifierApplicable m ctx)).foldlM
    (fun price m => price.multiply m.multiplier) afterHappyHour

/-- The partial stack the spec ascribes to VIPPricingStrategy: base
per-size pricing followed only by the VIP discount, with no happy-hour or
seasonal adjustment. -/
def specBaseThenVipOnly (basePrice : Money) (ctx : PricingContext) :
    Except ValidationError Money :=
  basePrice.multiply (getSizeMultiplier ctx.size) >>= fun afterSize =>
  if ctx.customerType = .VIP then afterSize.multiply (1 - 0.1)
  else pure afterSize

/-- A modifier whose window [0, 100] contains the witness order time 50. -/
def winterModifier : SeasonalModifier := ⟨"winter", 2, 0, 100, none⟩

/-- A modifier whose window [200, 300] does not contain order time 50. -/
def expiredModifier : SeasonalModifier := ⟨"expired", 3, 200, 300, none⟩

/-- Witness context: regular customer, no happy hour, order time 50, with
one applicable and one expired modifier. -/
def modifierCtx : PricingContext :=
  { size := .MEDIUM
    customIngredients := []
    quantity := 1
    customerType := .REGULAR
    orderTime := 50
    isHappyHour := false
    seasonalModifiers := [winterModifier, expiredModifier] }

/-- A seasonal modifier of multiplier 1.1 active at the witness order
time. -/
def promoModifier : SeasonalModifier := ⟨"promo", 1.1, 0, 100, none⟩

/-- Context for the concrete scenario of C7: LARGE size, regular customer,
no happy hour, one active 1.1 modifier. -/
def largeCtx : PricingContext :=
  { size := .LARGE
    customIngredients := []
    quantity := 1
    customerType := .REGULAR
    orderTime := 50
    isHappyHour := false
    seasonalModifiers := [promoModifier] }

/-- Concrete otherwise-valid order props whose single item is priced in
EUR. -/
def eurOrderProps : OrderProps :=
  { id := "order-eur"
    customerId := none
    customerInfo := ⟨"Alice", "123", none⟩
    items := [⟨⟨"recipe-1", .MEDIUM, .THIN, [], none⟩, 1, ⟨10, .EUR⟩, ⟨10, .EUR⟩⟩]
    deliveryType := .PICKUP
    deliveryAddress := none
    specialInstructions := none
    requestedDeliveryTime := none }

/-! ### Characterization lemmas for the Money operations -/

theorem exceptBind_ok {α β : Type} (a : α)
    (f : α → Except ValidationError β) :
    (Except.ok a >>= f : Except ValidationError β) = f a := rfl

theorem exceptBind_error {α β : Type} (e : ValidationError)
    (f : α → Except ValidationError β) :
    (Except.error e >>= f : Except ValidationError β) = Except.error e := rfl

theorem exceptBind_assoc {α β γ : Type} (x : Except ValidationError α)
    (f : α → Except ValidationError β) (g : β → Except ValidationError γ) :
    ((x >>= f) >>= g) = x >>= fun a => (f a >>= g) := by
  cases x <;> rfl

theorem Money.mkChecked_ok {a : ℚ} (c : Currency) (h : 0 ≤ a) :
    Money.mkChecked a c = .ok ⟨a, c⟩ := by
  simp [Money.mkChecked, not_lt.mpr h]

theorem Money.ensureSameCurrency_ok {a b : Money} (h : a.currency = b.currency) :
    a.ensureSameCurrency b = .ok () := by
  simp [Money.ensureSameCurrency, h]

theorem Money.ensureSameCurrency_error {a b : Money}
    (h : a.currency ≠ b.currency) :
    a.ensureSameCurrency b = .error ⟨"Cannot perform operation with different currencies: " ++
      a.currency.name ++ " and " ++ b.currency.name⟩ := by
  simp [Money.ensureSameCurrency, h]

theorem Money.add_ok {a b : Money} (hc : a.currency = b.currency)
    (h : 0 ≤ a.amount + b.amount) :
    a.add b = .ok ⟨a.amount + b.amount, a.currency⟩ := by
  rw [Money.add, Money.ensureSameCurrency_ok hc, exceptBind_ok,
    Money.mkChecked_ok _ h]

theorem Money.add_error {a b : Money} (hc : a.currency ≠ b.currency) :
    ∃ e, a.add b = .error e := by
  rw [Money.add, Money.ensureSameCurrency_error hc, exceptBind_error]
  exact ⟨_, rfl⟩

theorem Money.subtract_ok {a b : Money} (hc : a.currency = b.currency)
    (h : 0 ≤ a.amount - b.amount) :
    a.subtract b = .ok ⟨a.amount - b.amount, a.currency⟩ := by
  rw [Money.subtract, Money.ensureSameCurrency_ok hc, exceptBind_ok]
  simp only [not_lt.mpr h, if_false, Money.mkChecked_ok _ h]

theorem Money.subtract_error {a b : Money} (hc : a.currency ≠ b.currency) :
    ∃ e, a.subtract b = .error e := by
  rw [Money.subtract, Money.ensureSameCurrency_error hc, exceptBind_error]
  exact ⟨_, rfl⟩

theorem Money.multiply_ok {m : Money} {f : ℚ} (hf : 0 ≤ f)
    (hm : 0 ≤ m.amount) :
    m.multiply f = .ok ⟨m.amount * f, m.currency⟩ := by
  rw [Money.multiply, if_neg (not_lt.mpr hf),
    Money.mkChecked_ok _ (mul_nonneg hm hf)]

theorem Money.multiply_ok_inv {m r : Money} {f : ℚ}
    (h : m.multiply f = .ok r) :
    r.amount = m.amount * f ∧ r.currency = m.currency ∧ 0 ≤ r.amount := by
  rw [Money.multiply] at h
  by_cases hf : f < 0
  · simp [hf] at h
  · rw [if_neg hf, Money.mkChecked] at h
    by_cases hn : m.amount * f < 0
    · simp [hn] at h
    · rw [if_neg hn] at h
      cases h
      exact ⟨rfl, rfl, not_lt.mp hn⟩

theorem Money.isGreaterThan_error {a b : Money} (hc : a.currency ≠ b.currency) :
    ∃ e, a.isGreaterThan b = .error e := by
  rw [Money.isGreaterThan, Money.ensureSameCurrency_error hc, exceptBind_error]
  exact ⟨_, rfl⟩

theorem Money.isLessThan_error {a b : Money} (hc : a.currency ≠ b.currency) :
    ∃ e, a.isLessThan b = .error e := by
  rw [Money.isLessThan, Money.ensureSameCurrency_error hc, exceptBind_error]
  exact ⟨_, rfl⟩

/-! ### Claim theorems -/

/-- Claim C6: for every pair of same-currency Money values a and b,
a.add(b).subtract(b).equals(a) holds: add succeeds, subtracting b from the
sum succeeds, and the result equals a in amount and currency. -/
theorem money_add_subtract_inverse (a b : Money)
    (ha : 0 ≤ a.amount) (hb : 0 ≤ b.amount) (hc : a.currency = b.currency) :
    ∃ c d, a.add b = .ok c ∧ c.subtract b = .ok d ∧ d.equals a = true := by
  refine ⟨⟨a.amount + b.amount, a.currency⟩, ⟨a.amount, a.currency⟩, ?_, ?_, ?_⟩
  · exact Money.add_ok hc (by linarith)
  · have h := Money.subtract_ok (a := ⟨a.amount + b.amount, a.currency⟩)
      (b := b) hc (by simp [ha])
    simpa using h
  · simp [Money.equals]

/-- Witness for C6 at a = 10 USD, b = 5 USD. -/
theorem money_add_subtract_inverse_witness :
    ∃ c d, Money.add ⟨10, .USD⟩ ⟨5, .USD⟩ = .ok c ∧
      c.subtract ⟨5, .USD⟩ = .ok d ∧ d.equals ⟨10, .USD⟩ = true :=
  money_add_subtract_inverse ⟨10, .USD⟩ ⟨5, .USD⟩
    (by norm_num) (by norm_num) rfl

/-- Counterexample to claim C2 as stated: at the concrete pair 10 USD and
5 EUR, Money.add lands in the thrown-exception channel (Except.error), so
the cross-currency failure is a thrown ValidationError, not a returned
tagged success/failure value. -/
theorem money_add_throws_counterexample :
    Money.add ⟨10, .USD⟩ ⟨5, .EUR⟩ = Except.error
      ⟨"Cannot perform operation with different currencies: USD and EUR"⟩ := by
  rw [Money.add, Money.ensureSameCurrency_error (by decide), exceptBind_error]
  rfl

/-- Claim C2 (amended): Money's fallible operations fail with a
ValidationError and never return a Money or Bool value - create on a
negative amount, multiply on a negative factor, and add, subtract,
isGreaterThan and isLessThan on every pair of Money values with different
currencies - but the failure is a thrown exception (the Except error
channel), not a returned tagged Result. -/
theorem money_cross_currency_always_fails (a b : Money) (q : ℚ)
    (hc : a.currency ≠ b.currency) (hq : q < 0) :
    (∃ e, a.add b = .error e) ∧ (∃ e, a.subtract b = .error e) ∧
    (∃ e, a.isGreaterThan b = .error e) ∧
    (∃ e, a.isLessThan b = .error e) ∧
    (∃ e, Money.create q a.currency = .error e) ∧
    (∃ e, a.multiply q = .error e) :=
  ⟨Money.add_error hc, Money.subtract_error hc,
    Money.isGreaterThan_error hc, Money.isLessThan_error hc,
    ⟨_, by rw [Money.create, Money.mkChecked, if_pos hq]⟩,
    ⟨_, by rw [Money.multiply, if_pos hq]⟩⟩

/-- Witness for the amended C2 at 10 USD, 5 EUR and factor -1. -/
theorem money_cross_currency_always_fails_witness :
    (∃ e, Money.add ⟨10, .USD⟩ ⟨5, .EUR⟩ = .error e) ∧
    (∃ e, Money.subtract ⟨10, .USD⟩ ⟨5, .EUR⟩ = .error e) ∧
    (∃ e, Money.isGreaterThan ⟨10, .USD⟩ ⟨5, .EUR⟩ = .error e) ∧
    (∃ e, Money.isLessThan ⟨10, .USD⟩ ⟨5, .EUR⟩ = .error e) ∧
    (∃ e, Money.create (-1) (Money.currency ⟨10, .USD⟩) = .error e) ∧
    (∃ e, Money.multiply ⟨10, .USD⟩ (-1) = .error e) :=
  money_cross_currency_always_fails ⟨10, .USD⟩ ⟨5, .EUR⟩ (-1)
    (by decide) (by norm_num)

/-- Claim C1: every status-transition method of Order, called when its
precondition is unmet, returns Err with a BusinessRuleViolationError and
returns the order completely unchanged (no field is mutated). -/
theorem order_transition_guards (o : Order) (now : Date) :
    (o.status ≠ .PENDING → ∃ e, o.confirm now = (.Err e, o)) ∧
    (o.status ≠ .CONFIRMED ∨ o.paymentStatus ≠ .PAID →
      ∃ e, o.startPreparation = (.Err e, o)) ∧
    (o.status ≠ .PREPARING → ∃ e, o.markAsReady = (.Err e, o)) ∧
    (o.status ≠ .READY ∨ o.deliveryType = .PICKUP →
      ∃ e, o.startDelivery = (.Err e, o)) ∧
    ((o.deliveryType = .PICKUP ∧ o.status ≠ .READY) ∨
      (o.deliveryType = .DELIVERY ∧ o.status ≠ .OUT_FOR_DELIVERY) →
      ∃ e, o.markAsDelivered = (.Err e, o)) ∧
    (o.status = .DELIVERED ∨ o.status = .OUT_FOR_DELIVERY →
      ∃ e, o.cancel = (.Err e, o)) := by
  refine ⟨?_, ?_, ?_, ?_, ?_, ?_⟩
  · intro h
    exact ⟨_, by rw [Order.confirm, if_pos h]⟩
  · intro h
    by_cases h1 : o.status ≠ .CONFIRMED
    · exact ⟨_, by rw [Order.startPreparation, if_pos h1]⟩
    · have h2 : o.paymentStatus ≠ .PAID := by tauto
      exact ⟨_, by rw [Order.startPreparation, if_neg h1, if_pos h2]⟩
  · intro h
    exact ⟨_, by rw [Order.markAsReady, if_pos h]⟩
  · intro h
    by_cases h1 : o.status ≠ .READY
    · exact ⟨_, by rw [Order.startDelivery, if_pos h1]⟩
    · have h2 : o.deliveryType = .PICKUP := by tauto
      exact ⟨_, by rw [Order.startDelivery, if_neg h1, if_pos h2]⟩
  · intro h
    rcases h with ⟨hp, hs⟩ | ⟨hd, hs⟩
    · exact ⟨_, by rw [Order.markAsDelivered, if_pos ⟨hp, hs⟩]⟩
    · have h1 : ¬(o.deliveryType = .PICKUP ∧ o.status ≠ .READY) := by
        rintro ⟨h1, -⟩
        rw [hd] at h1
        cases h1
      exact ⟨_, by rw [Order.markAsDelivered, if_neg h1, if_pos ⟨hd, hs⟩]⟩
  · intro h
    exact ⟨_, by rw [Order.cancel, if_pos h]⟩

/-- Witness for C1: on the delivered pickup order every transition guard
is unmet, and all six methods return Err without mutating the order. -/
theorem order_transition_guards_witness :
    (∃ e, deliveredPickupOrder.confirm 0 = (.Err e, deliveredPickupOrder)) ∧
    (∃ e, deliveredPickupOrder.startPreparation = (.Err e, deliveredPickupOrder)) ∧
    (∃ e, deliveredPickupOrder.markAsReady = (.Err e, deliveredPickupOrder)) ∧
    (∃ e, deliveredPickupOrder.startDelivery = (.Err e, deliveredPickupOrder)) ∧
    (∃ e, deliveredPickupOrder.markAsDelivered = (.Err e, deliveredPickupOrder)) ∧
    (∃ e, deliveredPickupOrder.cancel = (.Err e, deliveredPickupOrder)) := by
  obtain ⟨h1, h2, h3, h4, h5, h6⟩ := order_transition_guards deliveredPickupOrder 0
  exact ⟨h1 (by decide), h2 (Or.inl (by decide)), h3 (by decide),
    h4 (Or.inl (by decide)), h5 (Or.inl ⟨by decide, by decide⟩),
    h6 (Or.inl (by decide))⟩

/-- Claim C4: startDelivery always fails with a BusinessRuleViolationError
on pickup orders, whatever the current state, and it succeeds exactly when
the status is READY and the delivery type is DELIVERY. -/
theorem startDelivery_pickup_always_fails (o : Order) :
    (o.deliveryType = .PICKUP → ∃ e, o.startDelivery = (.Err e, o)) ∧
    ((o.startDelivery).1 = .Ok () ↔
      (o.status = .READY ∧ o.deliveryType = .DELIVERY)) := by
  constructor
  · intro hp
    by_cases h1 : o.status ≠ .READY
    · exact ⟨_, by rw [Order.startDelivery, if_pos h1]⟩
    · exact ⟨_, by rw [Order.startDelivery, if_neg h1, if_pos hp]⟩
  · by_cases h1 : o.status ≠ .READY
    · rw [Order.startDelivery, if_pos h1]
      simp [h1]
    · rw [Order.startDelivery, if_neg h1]
      rw [not_not] at h1
      by_cases h2 : o.deliveryType = .PICKUP
      · rw [if_pos h2]
        simp [h1, h2]
      · rw [if_neg h2]
        cases hd : o.deliveryType with
        | PICKUP => exact absurd hd h2
        | DELIVERY => simp [h1, hd]

/-- Witness for C4: a pickup order in READY state still cannot start
delivery. -/
theorem startDelivery_pickup_always_fails_witness :
    ∃ e, ({ deliveredPickupOrder with status := .READY } : Order).startDelivery =
      (.Err e, { deliveredPickupOrder with status := .READY }) :=
  (startDelivery_pickup_always_fails _).1 (by decide)

/-- Claim C9: markPaymentAsPaid and markPaymentAsFailed never fail, work
in every order state, set only the payment status, leave every other
field (status, items, totals, fees, estimated delivery time) unchanged,
and emit no domain event. -/
theorem markPayment_only_sets_payment_status (o : Order) :
    (o.markPaymentAsPaid).paymentStatus = .PAID ∧
    (o.markPaymentAsFailed).paymentStatus = .FAILED ∧
    (o.markPaymentAsPaid).status = o.status ∧
    (o.markPaymentAsPaid).items = o.items ∧
    (o.markPaymentAsPaid).totalAmount = o.totalAmount ∧
    (o.markPaymentAsPaid).tax = o.tax ∧
    (o.markPaymentAsPaid).deliveryFee = o.deliveryFee ∧
    (o.markPaymentAsPaid).estimatedDeliveryTime = o.estimatedDeliveryTime ∧
    (o.markPaymentAsPaid).domainEvents = o.domainEvents ∧
    (o.markPaymentAsFailed).status = o.status ∧
    (o.markPaymentAsFailed).items = o.items ∧
    (o.markPaymentAsFailed).totalAmount = o.totalAmount ∧
    (o.markPaymentAsFailed).tax = o.tax ∧
    (o.markPaymentAsFailed).deliveryFee = o.deliveryFee ∧
    (o.markPaymentAsFailed).estimatedDeliveryTime = o.estimatedDeliveryTime ∧
    (o.markPaymentAsFailed).domainEvents = o.domainEvents :=
  ⟨rfl, rfl, rfl, rfl, rfl, rfl, rfl, rfl, rfl, rfl, rfl, rfl, rfl, rfl,
    rfl, rfl⟩

/-- Claim C10: cancelling an already-CANCELLED order succeeds and appends
another status-changed event with previousStatus = CANCELLED and
newStatus = CANCELLED, and cancel fails exactly when the status is
DELIVERED or OUT_FOR_DELIVERY. -/
theorem cancel_on_cancelled_succeeds_again (o : Order) :
    (o.status = .CANCELLED →
      o.cancel = (.Ok (), { o with
        status := .CANCELLED,
        domainEvents := o.domainEvents ++
          [.statusChanged o.id .CANCELLED .CANCELLED] })) ∧
    ((o.cancel).1.isErr = true ↔
      (o.status = .DELIVERED ∨ o.status = .OUT_FOR_DELIVERY)) := by
  constructor
  · intro h
    have hguard : ¬(o.status = .DELIVERED ∨ o.status = .OUT_FOR_DELIVERY) := by
      rw [h]
      rintro (h1 | h1) <;> cases h1
    rw [Order.cancel, if_neg hguard]
    simp [Order.changeStatus, Order.addDomainEvent, h]
  · by_cases h : o.status = .DELIVERED ∨ o.status = .OUT_FOR_DELIVERY
    · simp [Order.cancel, if_pos h, Result.isErr, h]
    · simp [Order.cancel, if_neg h, Result.isErr, h]

/-- Witness for C10: cancelling the cancelled order succeeds and appends a
CANCELLED-to-CANCELLED status-changed event. -/
theorem cancel_on_cancelled_succeeds_again_witness :
    cancelledOrder.cancel = (.Ok (), { cancelledOrder with
      status := .CANCELLED,
      domainEvents := cancelledOrder.domainEvents ++
        [.statusChanged cancelledOrder.id .CANCELLED .CANCELLED] }) :=
  (cancel_on_cancelled_succeeds_again cancelledOrder).1 (by decide)

/-- Claim C3: SeasonalPricingStrategy computes the full composed pipeline,
VIPPricingStrategy computes only base pricing plus the VIP discount, and
the VIP strategy ignores the happy-hour flag and the seasonal modifiers
entirely (so for contexts where those would apply, it omits them). -/
theorem pricing_strategy_composition (bp : Money) (ctx : PricingContext) :
    SeasonalPricingStrategy.calculatePrice bp ctx = specFullPricingPipeline bp ctx ∧
    VIPPricingStrategy.calculatePrice bp ctx = specBaseThenVipOnly bp ctx ∧
    VIPPricingStrategy.calculatePrice bp ctx =
      VIPPricingStrategy.calculatePrice bp
        { ctx with isHappyHour := false, seasonalModifiers := [] } := by
  refine ⟨?_, rfl, rfl⟩
  rw [SeasonalPricingStrategy.calculatePrice, HappyHourPricingStrategy.calculatePrice,
    VIPPricingStrategy.calculatePrice]
  rw [exceptBind_assoc, exceptBind_assoc]
  rfl

/-- Money produced by a successful multiply has a nonnegative amount (the
constructor check rules out negative results). -/
theorem BasePricing_ok_nonneg {bp : Money} {ctx : PricingContext} {r : Money}
    (h : BasePricingStrategy.calculatePrice bp ctx = .ok r) : 0 ≤ r.amount :=
  (Money.multiply_ok_inv h).2.2

theorem exceptPure_eq {α : Type} (a : α) :
    (pure a : Except ValidationError α) = .ok a := rfl

theorem VIPPricing_ok_nonneg {bp : Money} {ctx : PricingContext} {r : Money}
    (h : VIPPricingStrategy.calculatePrice bp ctx = .ok r) : 0 ≤ r.amount := by
  rw [VIPPricingStrategy.calculatePrice] at h
  cases hb : BasePricingStrategy.calculatePrice bp ctx with
  | error e =>
    rw [hb, exceptBind_error] at h
    exact Except.noConfusion h
  | ok a =>
    rw [hb, exceptBind_ok] at h
    by_cases hv : ctx.customerType = .VIP
    · rw [if_pos hv] at h
      exact (Money.multiply_ok_inv h).2.2
    · rw [if_neg hv, exceptPure_eq] at h
      injection h with h
      subst h
      exact BasePricing_ok_nonneg hb

theorem HappyHourPricing_ok_nonneg {bp : Money} {ctx : PricingContext}
    {r : Money}
    (h : HappyHourPricingStrategy.calculatePrice bp ctx = .ok r) :
    0 ≤ r.amount := by
  rw [HappyHourPricingStrategy.calculatePrice] at h
  cases hb : VIPPricingStrategy.calculatePrice bp ctx with
  | error e =>
    rw [hb, exceptBind_error] at h
    exact Except.noConfusion h
  | ok a =>
    rw [hb, exceptBind_ok] at h
    by_cases hh : ctx.isHappyHour = true
    · rw [if_pos hh] at h
      exact (Money.multiply_ok_inv h).2.2
    · rw [if_neg hh, exceptPure_eq] at h
      injection h with h
      subst h
      exact VIPPricing_ok_nonneg hb

/-- Folding multiply over a list of modifiers with nonnegative multipliers
over a nonnegative starting price multiplies the amount by the product of
the multipliers, in order, and keeps the currency. -/
theorem foldlM_multiply_ok (mods : List SeasonalModifier) :
    ∀ p : Money, 0 ≤ p.amount → (∀ m ∈ mods, 0 ≤ m.multiplier) →
    mods.foldlM (fun price modifier => price.multiply modifier.multiplier) p =
      .ok ⟨p.amount * (mods.map SeasonalModifier.multiplier).prod, p.currency⟩ := by
  induction mods with
  | nil =>
    intro p hp _
    simp only [List.foldlM_nil, List.map_nil, List.prod_nil, mul_one]
    rfl
  | cons m rest ih =>
    intro p hp hm
    have hm0 : 0 ≤ m.multiplier := hm m (List.mem_cons_self m rest)
    rw [List.foldlM_cons, Money.multiply_ok hm0 hp, exceptBind_ok,
      ih ⟨p.amount * m.multiplier, p.currency⟩ (mul_nonneg hp hm0)
        (fun x hx => hm x (List.mem_cons_of_mem m hx))]
    simp [mul_assoc]

/-- Claim C5: a seasonal modifier whose window does not contain the order
time (or whose size list excludes the size) leaves the computed price
unchanged; the applicable modifiers each multiply the price exactly once,
compounding in array order on top of the happy-hour stage price. -/
theorem seasonal_modifier_effects (bp : Money) (ctx : PricingContext)
    (m : SeasonalModifier) (pre post : List SeasonalModifier) :
    (SeasonalPricingStrategy.isModifierApplicable m ctx = false →
      SeasonalPricingStrategy.calculatePrice bp
          { ctx with seasonalModifiers := pre ++ m :: post } =
        SeasonalPricingStrategy.calculatePrice bp
          { ctx with seasonalModifiers := pre ++ post }) ∧
    (∀ p : Money, HappyHourPricingStrategy.calculatePrice bp ctx = .ok p →
      (∀ m' ∈ ctx.seasonalModifiers,
        SeasonalPricingStrategy.isModifierApplicable m' ctx = true →
        0 ≤ m'.multiplier) →
      SeasonalPricingStrategy.calculatePrice bp ctx =
        .ok ⟨p.amount * ((ctx.seasonalModifiers.filter (fun mm =>
            SeasonalPricingStrategy.isModifierApplicable mm ctx)).map
            SeasonalModifier.multiplier).prod, p.currency⟩) := by
  constructor
  · intro hna
    show (HappyHourPricingStrategy.calculatePrice bp ctx >>= fun price =>
        ((pre ++ m :: post).filter (fun mm =>
          SeasonalPricingStrategy.isModifierApplicable mm ctx)).foldlM
          (fun price modifier => price.multiply modifier.multiplier) price) =
      (HappyHourPricingStrategy.calculatePrice bp ctx >>= fun price =>
        ((pre ++ post).filter (fun mm =>
          SeasonalPricingStrategy.isModifierApplicable mm ctx)).foldlM
          (fun price modifier => price.multiply modifier.multiplier) price)
    have hf : (pre ++ m :: post).filter (fun mm =>
          SeasonalPricingStrategy.isModifierApplicable mm ctx) =
        (pre ++ post).filter (fun mm =>
          SeasonalPricingStrategy.isModifierApplicable mm ctx) := by
      simp [List.filter_append, List.filter_cons, hna]
    rw [hf]
  · intro p hp hm
    rw [SeasonalPricingStrategy.calculatePrice, hp, exceptBind_ok]
    exact foldlM_multiply_ok _ p (HappyHourPricing_ok_nonneg hp)
      (fun m' hm' => hm m' (List.mem_filter.mp hm').1 (List.mem_filter.mp hm').2)

theorem happyHour_stage_on_modifierCtx :
    HappyHourPricingStrategy.calculatePrice ⟨10, .USD⟩ modifierCtx =
      .ok ⟨10, .USD⟩ := by
  have hbase : BasePricingStrategy.calculatePrice ⟨10, .USD⟩ modifierCtx =
      .ok ⟨10, .USD⟩ := by
    rw [BasePricingStrategy.calculatePrice,
      Money.multiply_ok (by norm_num [modifierCtx, getSizeMultiplier]) (by norm_num)]
    simp only [Except.ok.injEq, Money.mk.injEq]
    norm_num [modifierCtx, getSizeMultiplier]
  have hvip : VIPPricingStrategy.calculatePrice ⟨10, .USD⟩ modifierCtx =
      .ok ⟨10, .USD⟩ := by
    rw [VIPPricingStrategy.calculatePrice, hbase, exceptBind_ok,
      if_neg (by decide : ¬modifierCtx.customerType = .VIP), exceptPure_eq]
  rw [HappyHourPricingStrategy.calculatePrice, hvip, exceptBind_ok,
    if_neg (by decide : ¬modifierCtx.isHappyHour = true), exceptPure_eq]

/-- Witness for C5: dropping the expired modifier does not change the
price, and the one applicable modifier doubles the 10 USD stage price to
20 USD exactly once. -/
theorem seasonal_modifier_effects_witness :
    SeasonalPricingStrategy.calculatePrice ⟨10, .USD⟩
        { modifierCtx with seasonalModifiers := [winterModifier, expiredModifier] } =
      SeasonalPricingStrategy.calculatePrice ⟨10, .USD⟩
        { modifierCtx with seasonalModifiers := [winterModifier] } ∧
    SeasonalPricingStrategy.calculatePrice ⟨10, .USD⟩ modifierCtx =
      .ok ⟨20, .USD⟩ := by
  constructor
  · exact (seasonal_modifier_effects ⟨10, .USD⟩ modifierCtx expiredModifier
      [winterModifier] []).1 (by decide)
  · have h := (seasonal_modifier_effects ⟨10, .USD⟩ modifierCtx expiredModifier
      [winterModifier] []).2 ⟨10, .USD⟩ happyHour_stage_on_modifierCtx
      (by decide)
    rw [h]
    simp only [Except.ok.injEq, Money.mk.injEq]
    constructor
    · rw [show modifierCtx.seasonalModifiers.filter (fun mm =>
          SeasonalPricingStrategy.isModifierApplicable mm modifierCtx) =
          [winterModifier] from by decide]
      norm_num [winterModifier]
    · trivial

theorem happyHour_stage_on_largeCtx :
    HappyHourPricingStrategy.calculatePrice ⟨16.99, .USD⟩ largeCtx =
      .ok ⟨22.087, .USD⟩ := by
  have hbase : BasePricingStrategy.calculatePrice ⟨16.99, .USD⟩ largeCtx =
      .ok ⟨22.087, .USD⟩ := by
    rw [BasePricingStrategy.calculatePrice,
      Money.multiply_ok (by norm_num [largeCtx, getSizeMultiplier]) (by norm_num)]
    simp only [Except.ok.injEq, Money.mk.injEq]
    norm_num [largeCtx, getSizeMultiplier]
  have hvip : VIPPricingStrategy.calculatePrice ⟨16.99, .USD⟩ largeCtx =
      .ok ⟨22.087, .USD⟩ := by
    rw [VIPPricingStrategy.calculatePrice, hbase, exceptBind_ok,
      if_neg (by decide : ¬largeCtx.customerType = .VIP), exceptPure_eq]
  rw [HappyHourPricingStrategy.calculatePrice, hvip, exceptBind_ok,
    if_neg (by decide : ¬largeCtx.isHappyHour = true), exceptPure_eq]

/-- Claim C7: for base price 16.99 USD and size LARGE the pricing chain
yields 22.087 USD, and with the single active 1.1 seasonal modifier the
price is 24.2957 USD, which toCents rounds to 2430 cents (24.30 USD). -/
theorem concrete_pricing_scenario :
    BasePricingStrategy.calculatePrice ⟨16.99, .USD⟩ largeCtx =
      .ok ⟨22.087, .USD⟩ ∧
    SeasonalPricingStrategy.calculatePrice ⟨16.99, .USD⟩ largeCtx =
      .ok ⟨24.2957, .USD⟩ ∧
    Money.toCents ⟨24.2957, .USD⟩ = 2430 := by
  refine ⟨?_, ?_, ?_⟩
  · rw [BasePricingStrategy.calculatePrice,
      Money.multiply_ok (by norm_num [largeCtx, getSizeMultiplier]) (by norm_num)]
    simp only [Except.ok.injEq, Money.mk.injEq]
    norm_num [largeCtx, getSizeMultiplier]
  · rw [SeasonalPricingStrategy.calculatePrice, happyHour_stage_on_largeCtx,
      exceptBind_ok,
      show largeCtx.seasonalModifiers.filter (fun modifier =>
          SeasonalPricingStrategy.isModifierApplicable modifier largeCtx) =
        [promoModifier] from by
        norm_num [largeCtx, promoModifier,
          SeasonalPricingStrategy.isModifierApplicable, List.filter_cons,
          List.filter_nil],
      foldlM_multiply_ok [promoModifier] ⟨22.087, .USD⟩ (by norm_num)
        (by intro x hx
            simp only [List.mem_singleton] at hx
            subst hx
            norm_num [promoModifier])]
    simp only [Except.ok.injEq, Money.mk.injEq]
    norm_num [promoModifier]
  · rw [Money.toCents, round_eq, Int.floor_eq_iff]
    constructor <;> norm_num

/-- Successful validation implies the item list is nonempty. -/
theorem validate_ok_items_nonempty {props : OrderProps}
    (h : Order.validateOrderProps props = .Ok ()) : props.items ≠ [] := by
  rw [Order.validateOrderProps] at h
  repeat' split at h
  all_goals first
    | exact Result.noConfusion h
    | simp_all [List.length_eq_zero]

/-- Folding Money.add of the item prices over a same-currency item list
succeeds and stays in that currency with a nonnegative amount. -/
theorem foldlM_add_currency (items : List OrderItem) (c : Currency) :
    ∀ acc : Money, acc.currency = c → 0 ≤ acc.amount →
    (∀ i ∈ items, i.totalPrice.currency = c ∧ 0 ≤ i.totalPrice.amount) →
    ∃ s : Money,
      items.foldlM (fun total item => total.add item.totalPrice) acc = .ok s ∧
      s.currency = c ∧ 0 ≤ s.amount := by
  induction items with
  | nil =>
    intro acc hc ha _
    exact ⟨acc, rfl, hc, ha⟩
  | cons i rest ih =>
    intro acc hc ha hall
    have hi := hall i (List.mem_cons_self i rest)
    rw [List.foldlM_cons,
      Money.add_ok (hc.trans hi.1.symm) (add_nonneg ha hi.2), exceptBind_ok]
    exact ih ⟨acc.amount + i.totalPrice.amount, acc.currency⟩ hc
      (add_nonneg ha hi.2) (fun x hx => hall x (List.mem_cons_of_mem i hx))

/-- calculateTotalAmount on a nonempty all-c item list with nonnegative
prices succeeds with a currency-c total. -/
theorem calculateTotalAmount_ok {items : List OrderItem} {c : Currency}
    (hne : items ≠ [])
    (hall : ∀ i ∈ items, i.totalPrice.currency = c ∧ 0 ≤ i.totalPrice.amount) :
    ∃ s, Order.calculateTotalAmount items = .ok s ∧
      s.currency = c ∧ 0 ≤ s.amount := by
  cases items with
  | nil => exact absurd rfl hne
  | cons first rest =>
    simp only [Order.calculateTotalAmount]
    have h1 := hall first (List.mem_cons_self first rest)
    rw [Money.multiply_ok le_rfl h1.2, exceptBind_ok]
    exact foldlM_add_currency (first :: rest) c
      ⟨first.totalPrice.amount * 0, first.totalPrice.currency⟩ h1.1
      (by simp) hall

/-- grandTotal throws when the item total and tax share a non-USD currency
while the delivery fee is USD. -/
theorem grandTotal_error {o : Order} {c : Currency}
    (ht : o.totalAmount.currency = c) (htax : o.tax.currency = c)
    (hfee : o.deliveryFee.currency = .USD) (hc : c ≠ .USD)
    (h0 : 0 ≤ o.totalAmount.amount) (h1 : 0 ≤ o.tax.amount) :
    ∃ e, o.grandTotal = .error e := by
  rw [Order.grandTotal,
    Money.add_ok (ht.trans htax.symm) (add_nonneg h0 h1), exceptBind_ok]
  exact Money.add_error (a := ⟨o.totalAmount.amount + o.tax.amount,
    o.totalAmount.currency⟩) (by
      show o.totalAmount.currency ≠ o.deliveryFee.currency
      rw [ht, hfee]
      exact hc)

/-- Claim C8: the delivery fee is always denominated in USD (0 USD for
pickup, 5 USD for delivery) whatever the item currency, and consequently
Order.create on otherwise-valid props whose item prices are all in a
non-USD currency does not return Ok: evaluating grandTotal inside the
created event throws a ValidationError (the Except error channel),
instead of returning a tagged error. -/
theorem order_create_non_usd_throws (props : OrderProps) (c : Currency)
    (hval : Order.validateOrderProps props = .Ok ())
    (hcur : ∀ i ∈ props.items,
      i.totalPrice.currency = c ∧ 0 ≤ i.totalPrice.amount)
    (hc : c ≠ .USD) :
    Order.calculateDeliveryFee .PICKUP props.deliveryAddress = .ok ⟨0, .USD⟩ ∧
    Order.calculateDeliveryFee .DELIVERY props.deliveryAddress = .ok ⟨5, .USD⟩ ∧
    (∃ e, Order.create props = .error e) ∧
    (∀ r, Order.create props ≠ .ok r) := by
  have hmain : ∃ e, Order.create props = .error e := by
    obtain ⟨s, hs, hsc, hs0⟩ :=
      calculateTotalAmount_ok (validate_ok_items_nonempty hval) hcur
    have htax : Order.calculateTax s = .ok ⟨s.amount * 0.1, s.currency⟩ := by
      rw [Order.calculateTax, Money.multiply_ok (by norm_num) hs0]
    have hfee : ∃ fm, Order.calculateDeliveryFee props.deliveryType
        props.deliveryAddress = .ok fm ∧ fm.currency = .USD ∧ 0 ≤ fm.amount := by
      cases props.deliveryType with
      | PICKUP =>
        exact ⟨⟨0, .USD⟩, by
          rw [Order.calculateDeliveryFee, if_pos rfl, Money.create,
            Money.mkChecked_ok _ le_rfl], rfl, le_rfl⟩
      | DELIVERY =>
        exact ⟨⟨5, .USD⟩, by
          rw [Order.calculateDeliveryFee, if_neg (by decide), Money.create,
            Money.mkChecked_ok _ (by norm_num)], rfl, by norm_num⟩
    obtain ⟨fm, hfm, hfmc, hfm0⟩ := hfee
    obtain ⟨e, he⟩ := grandTotal_error
      (o := { id := props.id
              customerId := jsStringOrNull props.customerId
              customerInfo := props.customerInfo
              items := props.items
              deliveryType := props.deliveryType
              deliveryAddress := props.deliveryAddress
              specialInstructions := jsStringOrNull props.specialInstructions
              requestedDeliveryTime := props.requestedDeliveryTime
              totalAmount := s
              tax := ⟨s.amount * 0.1, s.currency⟩
              deliveryFee := fm
              status := .PENDING
              paymentStatus := .PENDING
              estimatedDeliveryTime := none
              domainEvents := [] })
      hsc (by simpa using hsc) hfmc hc hs0
      (by simpa using mul_nonneg hs0 (by norm_num))
    refine ⟨e, ?_⟩
    simp only [Order.create, hval, hs, htax, hfm, exceptBind_ok, he,
      exceptBind_error]
  refine ⟨?_, ?_, hmain, ?_⟩
  · rw [Order.calculateDeliveryFee, if_pos rfl, Money.create,
      Money.mkChecked_ok _ le_rfl]
  · rw [Order.calculateDeliveryFee, if_neg (by decide), Money.create,
      Money.mkChecked_ok _ (by norm_num)]
  · intro r hr
    obtain ⟨e, he⟩ := hmain
    rw [he] at hr
    exact Except.noConfusion hr

/-- Witness for C8: creating the EUR order throws instead of returning a
tagged value, and both delivery fees are USD. -/
theorem order_create_non_usd_throws_witness :
    Order.calculateDeliveryFee .PICKUP eurOrderProps.deliveryAddress =
      .ok ⟨0, .USD⟩ ∧
    Order.calculateDeliveryFee .DELIVERY eurOrderProps.deliveryAddress =
      .ok ⟨5, .USD⟩ ∧
    (∃ e, Order.create eurOrderProps = .error e) ∧
    (∀ r, Order.create eurOrderProps ≠ .ok r) :=
  order_create_non_usd_throws eurOrderProps .EUR (by decide) (by decide)
    (by decide)

end DePizza
